import Mathlib

/-!
Verification development for the PTC10 controller driver (`src/ptc10.py`).

The driver is shallowly embedded as explicit state passing over a `World`
that models Python's attribute semantics for the `PTC10` class: the class
body declares `sock`, `connected`, `success`, `channel_names` as class-level
attributes, and every method assigns them through `self`, which in Python
creates per-instance overrides.  A `World` therefore carries the class
attribute record, the per-instance override records of two instances, a
heap of socket objects, and the log of reported events.

The TCP socket is modelled at the OS-call level (`connect`, `sendall`,
`recv`, `close`) on a socket object with a closed flag, a TCP-connected
flag, a receive buffer of chunks and a trace of sent frames.  The
controller on the far end is half-duplex: every frame the driver sends is
answered by exactly one reply frame, given by a `device : String → String`
parameter, appended to the receive buffer.

Numeric values: Python `float(...)` on the controller's ASCII replies is
modelled exactly, as an idealized real (no binary64 rounding).  A parsed
number is kept as a canonical decimal pair `m * 10 ^ e` with `10 ∤ m`
(and `(0, 0)` for zero), which gives decidable value equality; `float`
also accepts the special tokens nan/inf/infinity case-insensitively after
an optional sign, and raises `ValueError` otherwise (modelled as `none`).
Numeric-literal underscores, accepted by CPython, are not modelled; no
reply in the development uses them.

`self.logger` is always non-`None` after `__init__`, so the `if
self.logger:` guards in the source always take the logging branch and the
`print` fall-backs are dead; events are modelled as `(severity, text)`
pairs, with the text approximating Python's `%`-formatting.
-/

namespace PTC10

/-- Models Python `str.strip()` on the character list: drop Unicode
whitespace from both ends. -/
def stripChars (l : List Char) : List Char :=
  ((l.dropWhile Char.isWhitespace).reverse.dropWhile Char.isWhitespace).reverse

/-- Models Python `str.strip()`. -/
def pyStrip (s : String) : String := String.mk (stripChars s.data)

/-- Models Python `str.split(sep)` for a one-character separator:
`"".split(",") = [""]`, and every separator occurrence splits. -/
def splitChar (sep : Char) : List Char → List (List Char)
  | [] => [[]]
  | c :: t =>
    let r := splitChar sep t
    if c = sep then [] :: r
    else
      match r with
      | [] => [[c]]
      | h :: t2 => (c :: h) :: t2

/-- Models Python `str.split(sep)` for a one-character separator. -/
def pySplit (sep : Char) (s : String) : List String :=
  (splitChar sep s.data).map String.mk

/-- Models Python `str.replace(" ", "")`: removes every space character. -/
def removeSpaces (s : String) : String :=
  String.mk (s.data.filter (fun c => c ≠ ' '))

/-- A Python float value, idealized as an exact real: `nan`, signed
infinity, or a number written canonically as `m * 10 ^ e` with `10 ∤ m`
(`num 0 0` for zero), so that two decimal literals denote the same value
iff their canonical pairs coincide. -/
inductive PyVal
  | nan
  | inf (neg : Bool)
  | num (m : Int) (e : Int)
  deriving Repr, DecidableEq

/-- Numeric value of a digit character. -/
def digitVal (c : Char) : Nat := c.toNat - '0'.toNat

/-- Value of a digit string, most significant first. -/
def natOfDigits (l : List Char) : Nat := l.foldl (fun a c => a * 10 + digitVal c) 0

/-- All characters are ASCII digits. -/
def allDigits (l : List Char) : Bool := l.all Char.isDigit

/-- Split at the first character satisfying `p`; `none` if absent. -/
def breakAt (p : Char → Bool) : List Char → List Char × Option (List Char)
  | [] => ([], none)
  | c :: t =>
    if p c then ([], some t)
    else
      let r := breakAt p t
      (c :: r.1, r.2)

/-- Mantissa of a Python float literal: `digits`, `digits.`, `.digits` or
`digits.digits`, returned as (integer formed by all digits, exponent
shift from the fractional part). -/
def mantissaVal (ms : List Char) : Option (Int × Int) :=
  match breakAt (fun c => c = '.') ms with
  | (ip, none) =>
    if !ip.isEmpty && allDigits ip then some ((natOfDigits ip : Int), 0) else none
  | (ip, some fp) =>
    if (!ip.isEmpty || !fp.isEmpty) && allDigits ip && allDigits fp then
      some ((natOfDigits (ip ++ fp) : Int), -(fp.length : Int))
    else none

/-- Exponent part of a Python float literal: optional sign then digits. -/
def expVal (es : List Char) : Option Int :=
  match es with
  | '+' :: t => if !t.isEmpty && allDigits t then some ((natOfDigits t : Int)) else none
  | '-' :: t => if !t.isEmpty && allDigits t then some (-(natOfDigits t : Int)) else none
  | t => if !t.isEmpty && allDigits t then some ((natOfDigits t : Int)) else none

/-- Numeric Python float literal (after sign removal): mantissa with an
optional `e`/`E` exponent, as a (mantissa integer, decimal exponent) pair. -/
def numericVal (cs : List Char) : Option (Int × Int) :=
  match breakAt (fun c => c = 'e' || c = 'E') cs with
  | (ms, none) => mantissaVal ms
  | (ms, some es) =>
    match mantissaVal ms, expVal es with
    | some (m, e1), some e2 => some (m, e1 + e2)
    | _, _ => none

/-- Strip trailing decimal zeros from the mantissa, fuel-bounded; the fuel
`m.natAbs` always suffices since `|m|` has fewer than `|m|` trailing zeros. -/
def canonAux : Nat → Int → Int → Int × Int
  | 0, m, e => (m, e)
  | f + 1, m, e => if m % 10 == 0 then canonAux f (m / 10) (e + 1) else (m, e)

/-- Canonical decimal pair for `m * 10 ^ e`: zero is `(0, 0)`, otherwise
trailing zeros are moved from the mantissa into the exponent. -/
def canonDec (m e : Int) : Int × Int :=
  if m == 0 then (0, 0) else canonAux m.natAbs m e

/-- Lower-case a character list (for the case-insensitive special tokens). -/
def lowerStr (l : List Char) : List Char := l.map Char.toLower

/-- Models Python `float(s)`: strip whitespace, optional sign, then either
a special token (`nan`, `inf`, `infinity`, case-insensitive) or a decimal
literal with optional exponent.  `none` models the `ValueError` raise. -/
def pyFloat (s : String) : Option PyVal :=
  let cs := stripChars s.data
  let sb : Bool × List Char :=
    match cs with
    | '+' :: t => (false, t)
    | '-' :: t => (true, t)
    | t => (false, t)
  let lb := lowerStr sb.2
  if lb = ['n', 'a', 'n'] then some .nan
  else if lb = ['i', 'n', 'f'] || lb = ['i', 'n', 'f', 'i', 'n', 'i', 't', 'y'] then
    some (.inf sb.1)
  else
    match numericVal sb.2 with
    | none => none
    | some (m, e) =>
      let m2 := if sb.1 then -m else m
      let c := canonDec m2 e
      some (.num c.1 c.2)

example : pyFloat "23.5" = some (.num 235 (-1)) := by decide
example : pyFloat "-1.2" = some (.num (-12) (-1)) := by decide
example : pyFloat "ERR" = none := by decide
example : pyFloat "NaN" = some .nan := by decide
example : pyFloat " 1.50 " = pyFloat "1.5" := by decide
example : pyFloat "2e3" = pyFloat "2000" := by decide
example : pyFloat "" = none := by decide
example : pyFloat "." = none := by decide

/-- Severity of a reported event (`logging` levels used by the source). -/
inductive Sev
  | debug
  | info
  | warning
  | error
  deriving Repr, DecidableEq

/-- OS-level socket error kinds relevant to the source: `EISCONN` is
tested explicitly by `connect`; the others are causes the source only ever
sees wrapped or caught. -/
inductive OSErr
  | eisconn
  | econnrefused
  | enotconn
  | ebadf
  | einval
  deriving Repr, DecidableEq

/-- Python exceptions escaping a call in the model.  `ioError` is the
`IOError` raised by the source's `write`/`read`/`disconnect` wrappers;
`valueError` is the `float()` parse failure; `osError` is an uncaught
OS-level error; `protocolError` appears in the specification's error
taxonomy (§7) but is never defined or raised by the source — it is
included so that claims about it are statable; `blocked` marks a blocking
`recv` on an empty buffer, which never returns (no Python exception). -/
inductive PyErr
  | ioError (msg : String)
  | valueError (msg : String)
  | osError (e : OSErr)
  | protocolError (msg : String)
  | blocked
  deriving Repr, DecidableEq

/-- A socket object: closed flag, TCP-connected flag, receive buffer of
pending chunks, and the trace of frames sent so far. -/
structure SockSt where
  closed : Bool := false
  tcp : Bool := false
  buf : List String := []
  sent : List String := []
  deriving Repr, DecidableEq

/-- The attributes declared in the `PTC10` class body (their class-level
values are `None`, `False`, `False`, `None`); the socket is a reference
into the heap of socket objects. -/
structure Attrs where
  sock : Option Nat := none
  connected : Bool := false
  success : Bool := false
  channel_names : Option (List String) := none
  deriving Repr, DecidableEq

/-- Per-instance attribute overrides (the instance `__dict__`): `none`
means the attribute read falls through to the class attribute. -/
structure Over where
  sock : Option (Option Nat) := none
  connected : Option Bool := none
  success : Option Bool := none
  channel_names : Option (Option (List String)) := none
  deriving Repr, DecidableEq

/-- Instance identity: two separately constructed `PTC10` objects. -/
inductive IId
  | a
  | b
  deriving Repr, DecidableEq

/-- Whole-program state: the class attribute record, the two instances'
overrides, the heap of socket objects, and the log of reported events. -/
structure World where
  cls : Attrs := {}
  ovA : Over := {}
  ovB : Over := {}
  socks : List SockSt := []
  log : List (Sev × String) := []
  deriving Repr, DecidableEq

/-- Overrides of an instance. -/
def World.ov (w : World) : IId → Over
  | .a => w.ovA
  | .b => w.ovB

/-- Replace an instance's overrides. -/
def World.setOv (w : World) (i : IId) (o : Over) : World :=
  match i with
  | .a => { w with ovA := o }
  | .b => { w with ovB := o }

/-- Read `self.sock` with Python's instance-then-class lookup. -/
def World.sockOf (w : World) (i : IId) : Option Nat :=
  ((w.ov i).sock).getD w.cls.sock

/-- Read `self.connected`. -/
def World.connectedOf (w : World) (i : IId) : Bool :=
  ((w.ov i).connected).getD w.cls.connected

/-- Read `self.success`. -/
def World.successOf (w : World) (i : IId) : Bool :=
  ((w.ov i).success).getD w.cls.success

/-- Read `self.channel_names`. -/
def World.namesOf (w : World) (i : IId) : Option (List String) :=
  ((w.ov i).channel_names).getD w.cls.channel_names

/-- Assignment `self.sock = v` (creates an instance override). -/
def World.setSock (w : World) (i : IId) (v : Option Nat) : World :=
  w.setOv i { w.ov i with sock := some v }

/-- Assignment `self.connected = v`. -/
def World.setConnected (w : World) (i : IId) (v : Bool) : World :=
  w.setOv i { w.ov i with connected := some v }

/-- Assignment `self.success = v`. -/
def World.setSuccess (w : World) (i : IId) (v : Bool) : World :=
  w.setOv i { w.ov i with success := some v }

/-- Assignment `self.channel_names = v`. -/
def World.setNames (w : World) (i : IId) (v : Option (List String)) : World :=
  w.setOv i { w.ov i with channel_names := some v }

/-- Dereference a socket handle in the heap. -/
def World.readSock (w : World) (sid : Nat) : Option SockSt :=
  w.socks.get? sid

/-- Update a socket object in the heap (in-place object mutation). -/
def World.writeSock (w : World) (sid : Nat) (s : SockSt) : World :=
  { w with socks := w.socks.set sid s }

/-- Report an event (`self.logger.<sev>(...)`). -/
def World.addLog (w : World) (v : Sev) (m : String) : World :=
  { w with log := w.log ++ [(v, m)] }

/-- Allocate a fresh socket object (`socket.socket(AF_INET, SOCK_STREAM)`). -/
def World.allocSock (w : World) : Nat × World :=
  (w.socks.length, { w with socks := w.socks ++ [{}] })

/-- OS `sendall` on the socket `sid`; the half-duplex controller answers
every sent frame with `device` applied to that frame, appended to the
receive buffer.  Raises `OSError` if the socket is closed or not
connected. -/
def osSendall (device : String → String) (w : World) (sid : Nat)
    (data : String) : Except PyErr Unit × World :=
  match w.readSock sid with
  | none => (.error (.osError .ebadf), w)
  | some s =>
    if s.closed then (.error (.osError .ebadf), w)
    else if s.tcp then
      (.ok (), w.writeSock sid
        { s with sent := s.sent ++ [data], buf := s.buf ++ [device data] })
    else (.error (.osError .enotconn), w)

/-- OS blocking `recv` on the socket `sid`: returns the next buffered
chunk; on an empty buffer it never returns (`blocked`); raises `OSError`
if the socket is closed or not connected. -/
def osRecv (w : World) (sid : Nat) : Except PyErr String × World :=
  match w.readSock sid with
  | none => (.error (.osError .ebadf), w)
  | some s =>
    if s.closed then (.error (.osError .ebadf), w)
    else if !s.tcp then (.error (.osError .enotconn), w)
    else
      match s.buf with
      | [] => (.error .blocked, w)
      | c :: rest => (.ok c, w.writeSock sid { s with buf := rest })

/-- OS `connect` on the socket `sid`: raises `EISCONN` if already
connected, `EBADF` if closed; otherwise succeeds when the peer accepts
(`accept`) and raises `ECONNREFUSED` when it does not. -/
def osConnect (accept : Bool) (w : World) (sid : Nat) :
    Except PyErr Unit × World :=
  match w.readSock sid with
  | none => (.error (.osError .einval), w)
  | some s =>
    if s.closed then (.error (.osError .ebadf), w)
    else if s.tcp then (.error (.osError .eisconn), w)
    else if accept then (.ok (), w.writeSock sid { s with tcp := true })
    else (.error (.osError .econnrefused), w)

/-- Embeds `PTC10.write` (ptc10.py:99-110): log the send at debug level,
then `self.sock.sendall((msg + "\n").encode())`; any exception —
`AttributeError` when `self.sock` is `None`, or `OSError` from `sendall`
— is caught and re-raised as `IOError` (the interpolated cause text is
elided). -/
def write (device : String → String) (i : IId) (msg : String) (w : World) :
    Except PyErr Unit × World :=
  let w := w.addLog .debug ("Sending: " ++ msg)
  match w.sockOf i with
  | none => (.error (.ioError "Failed to write message"), w)
  | some sid =>
    match osSendall device w sid (msg ++ "\n") with
    | (.ok _, w) => (.ok (), w)
    | (.error _, w) => (.error (.ioError "Failed to write message"), w)

/-- Embeds `PTC10.read` (ptc10.py:112-124): `self.sock.recv(4096)`,
decode, strip, log at debug level; any exception is caught and re-raised
as `IOError`.  The model reads whole chunks (replies are shorter than
4096 bytes) and text decoding never fails on the modelled ASCII replies.
A blocking `recv` on an empty buffer never returns, which is not an
exception and hence not wrapped. -/
def read (i : IId) (w : World) : Except PyErr String × World :=
  match w.sockOf i with
  | none => (.error (.ioError "Failed to read message"), w)
  | some sid =>
    match osRecv w sid with
    | (.ok chunk, w) =>
      let retval := pyStrip chunk
      (.ok retval, w.addLog .debug ("Received: " ++ retval))
    | (.error .blocked, w) => (.error .blocked, w)
    | (.error _, w) => (.error (.ioError "Failed to read message"), w)

/-- Embeds `PTC10.query` (ptc10.py:126-137): `self.write(msg)` then
`return self.read()`. -/
def query (device : String → String) (i : IId) (msg : String) (w : World) :
    Except PyErr String × World :=
  match write device i msg w with
  | (.ok _, w) => read i w
  | (.error e, w) => (.error e, w)

/-- The drain loop of `PTC10.__clear_socket`: non-blocking `recv` until
`BlockingIOError` breaks the loop, discarding every chunk read. -/
def drainBuf : List String → List String
  | [] => []
  | _ :: t => drainBuf t

/-- Embeds `PTC10.__clear_socket` (ptc10.py:79-88): if `self.sock` is not
`None`, switch to non-blocking, `recv` in a loop discarding everything
until `BlockingIOError`, restore blocking.  A non-blocking `recv` on a
closed or unconnected socket raises an `OSError` other than
`BlockingIOError`, which the loop does not catch and which therefore
propagates. -/
def clear_socket (i : IId) (w : World) : Except PyErr Unit × World :=
  match w.sockOf i with
  | none => (.ok (), w)
  | some sid =>
    match w.readSock sid with
    | none => (.error (.osError .einval), w)
    | some s =>
      if s.closed then (.error (.osError .ebadf), w)
      else if !s.tcp then (.error (.osError .enotconn), w)
      else (.ok (), w.writeSock sid { s with buf := drainBuf s.buf })

/-- Embeds `PTC10.connect` (ptc10.py:50-77): allocate a socket if
`self.sock` is `None`; try `self.sock.connect((host, port))`, catching
`OSError`: on success or on `EISCONN` ("already connected") log at info
level and set `self.connected = self.success = True`; on any other
`OSError` log at error level and set both `False`.  Finally, if
`self.connected`, drain the socket via `__clear_socket` (whose uncaught
errors would propagate).  `accept` is whether the peer accepts a fresh
connection attempt. -/
def connect (accept : Bool) (host : String) (port : Nat) (i : IId)
    (w : World) : Except PyErr Unit × World :=
  let w :=
    match w.sockOf i with
    | none =>
      let aw := w.allocSock
      aw.2.setSock i (some aw.1)
    | some _ => w
  match w.sockOf i with
  | none => (.ok (), w)
  | some sid =>
    let w1 :=
      match osConnect accept w sid with
      | (.ok _, w) =>
        (((w.addLog .info ("Connected to " ++ host ++ ":" ++ toString port)).setConnected
            i true).setSuccess i true)
      | (.error (.osError .eisconn), w) =>
        (((w.addLog .info "Already connected").setConnected i true).setSuccess i true)
      | (.error _, w) =>
        (((w.addLog .error "Connection error").setConnected i false).setSuccess i false)
    if w1.connectedOf i then clear_socket i w1 else (.ok (), w1)

/-- Embeds `PTC10.disconnect` (ptc10.py:139-147): log at info level, then
`self.sock.close()`; any exception — `AttributeError` when `self.sock` is
`None` — is caught and re-raised as `IOError`.  Closing an
already-closed socket object does not raise.  The method never touches
`self.connected`. -/
def disconnect (i : IId) (w : World) : Except PyErr Unit × World :=
  let w := w.addLog .info "Closing connection to controller"
  match w.sockOf i with
  | none => (.error (.ioError "Failed to close connection"), w)
  | some sid =>
    match w.readSock sid with
    | none => (.error (.ioError "Failed to close connection"), w)
    | some s => (.ok (), w.writeSock sid { s with closed := true })

/-- Embeds `PTC10.get_channel_names` (ptc10.py:217-228): query
`"getOutputNames?"`, split the reply on commas, strip each name, log at
debug level, return the list. -/
def get_channel_names (device : String → String) (i : IId) (w : World) :
    Except PyErr (List String) × World :=
  match query device i "getOutputNames?" w with
  | (.error e, w) => (.error e, w)
  | (.ok response, w) =>
    let names := (pySplit ',' response).map pyStrip
    (.ok names, w.addLog .debug "Channel names")

/-- Embeds `PTC10.validate_channel_name` (ptc10.py:161-165): if
`self.channel_names` is `None`, fetch it via `get_channel_names` (whose
exceptions propagate) and assign it; return membership of the name in
`self.channel_names`. -/
def validate_channel_name (device : String → String) (i : IId)
    (channel_name : String) (w : World) : Except PyErr Bool × World :=
  match w.namesOf i with
  | none =>
    match get_channel_names device i w with
    | (.error e, w) => (.error e, w)
    | (.ok names, w) =>
      let w := w.setNames i (some names)
      (.ok (names.contains channel_name), w)
  | some names => (.ok (names.contains channel_name), w)

/-- Embeds `PTC10.get_channel_value` (ptc10.py:167-200): validate the
channel name; if invalid, log an error and return `float("nan")` without
querying.  If valid, strip spaces from the name, query `"<name>?"`, and
`float(response)`: on `ValueError` log an error and return
`float("nan")`; otherwise log at debug level and return the value. -/
def get_channel_value (device : String → String) (i : IId) (channel : String)
    (w : World) : Except PyErr PyVal × World :=
  match validate_channel_name device i channel w with
  | (.error e, w) => (.error e, w)
  | (.ok true, w) =>
    let w := w.addLog .debug ("Channel name validated: " ++ channel)
    let query_channel := removeSpaces channel
    match query device i (query_channel ++ "?") w with
    | (.error e, w) => (.error e, w)
    | (.ok response, w) =>
      match pyFloat response with
      | some value => (.ok value, w.addLog .debug ("Channel " ++ channel ++ " value"))
      | none =>
        (.ok .nan,
          w.addLog .error
            ("Invalid float returned for channel " ++ channel ++ ": " ++ response))
  | (.ok false, w) =>
    (.ok .nan, w.addLog .error ("Invalid channel name: " ++ channel))

/-- The list comprehension of `PTC10.get_all_values` (ptc10.py:210-212):
`float(val) if val != "NaN" else float("nan")` left to right; the first
field that is not the literal token `"NaN"` and fails `float()` raises
`ValueError`, which nothing in `get_all_values` catches. -/
def parseFields : List String → Except PyErr (List PyVal)
  | [] => .ok []
  | v :: rest =>
    if v = "NaN" then
      match parseFields rest with
      | .ok vs => .ok (.nan :: vs)
      | .error e => .error e
    else
      match pyFloat v with
      | none => .error (.valueError ("could not convert string to float: " ++ v))
      | some x =>
        match parseFields rest with
        | .ok vs => .ok (x :: vs)
        | .error e => .error e

/-- Embeds `PTC10.get_all_values` (ptc10.py:202-215): query
`"getOutput?"`, split the reply on commas, run the parsing comprehension
(`ValueError` propagates), log at debug level, return the values. -/
def get_all_values (device : String → String) (i : IId) (w : World) :
    Except PyErr (List PyVal) × World :=
  match query device i "getOutput?" w with
  | (.error e, w) => (.error e, w)
  | (.ok response, w) =>
    match parseFields (pySplit ',' response) with
    | .error e => (.error e, w)
    | .ok values => (.ok values, w.addLog .debug "Output values")

/-- A usable stream: a live, open, TCP-connected socket object behind
`self.sock` (the liveness side of the §3 Connection invariant). -/
def sockUsable (w : World) (i : IId) : Bool :=
  match w.sockOf i with
  | none => false
  | some sid =>
    match w.readSock sid with
    | none => false
    | some s => !s.closed && s.tcp

/-- A usable stream whose receive buffer is empty (no stale bytes). -/
def sockReady (w : World) (i : IId) : Bool :=
  match w.sockOf i with
  | none => false
  | some sid =>
    match w.readSock sid with
    | none => false
    | some s => !s.closed && s.tcp && s.buf.isEmpty

/-- The stream handle is null or refers to a closed socket (the
disconnected side of the §3 Connection invariant). -/
def streamClosed (w : World) (i : IId) : Bool :=
  match w.sockOf i with
  | none => true
  | some sid =>
    match w.readSock sid with
    | none => true
    | some s => s.closed

instance {ε α : Type} [DecidableEq ε] [DecidableEq α] :
    DecidableEq (Except ε α) := fun x y =>
  match x, y with
  | .ok a, .ok b =>
    if h : a = b then isTrue (by rw [h])
    else isFalse (fun hh => h (by cases hh; rfl))
  | .error a, .error b =>
    if h : a = b then isTrue (by rw [h])
    else isFalse (fun hh => h (by cases hh; rfl))
  | .ok _, .error _ => isFalse (fun hh => Except.noConfusion hh)
  | .error _, .ok _ => isFalse (fun hh => Except.noConfusion hh)

/-- The outcome is a raised `IOError`. -/
def isIOErr {α : Type} : Except PyErr α → Bool
  | .error (.ioError _) => true
  | _ => false

/-- The outcome is a raised `ProtocolError` (the spec's §7 kind). -/
def isProtoErr {α : Type} : Except PyErr α → Bool
  | .error (.protocolError _) => true
  | _ => false

/-- The outcome is a raised `ValueError`. -/
def isValueErr {α : Type} : Except PyErr α → Bool
  | .error (.valueError _) => true
  | _ => false

/-- The fresh world: class attributes as declared in the class body, two
instances with empty override dictionaries, no sockets, no events. -/
def w0 : World := {}

/-- A controller that replies to every frame with a malformed numeric
reply. -/
def devERR : String → String := fun _ => "ERR\n"

/-- A controller whose bulk-value reply exercises the literal `NaN`
token. -/
def devOut : String → String := fun _ => "23.5,NaN,-1.2\n"

/-- A silent placeholder controller. -/
def devNull : String → String := fun _ => ""

/-- Instance `a` of `w0` after a successful first `connect`. -/
def wConn : World := (connect true "localhost" 2101 .a w0).2

/-- The observable attribute reads of one instance: liveness flag, socket
handle, success flag and cached channel-name list as Python resolves them
(instance override, else class attribute). -/
def obsOf (w : World) (j : IId) :
    Option Nat × Bool × Bool × Option (List String) :=
  (w.sockOf j, w.connectedOf j, w.successOf j, w.namesOf j)

/-- `wConn` with the registry cache of instance `a` populated. -/
def wC1 : World := wConn.setNames .a (some ["3A", "Out 1"])

/-- A fresh world with the registry cache of instance `a` populated. -/
def wC2 : World := w0.setNames .a (some ["3A"])

/-- A controller whose channel-name reply carries a padded name. -/
def devNames : String → String := fun _ => "3A, Out 1\n"

/-- A world whose instance `a` holds a connected socket with a stale
unread chunk left in the receive buffer. -/
def wStale : World :=
  { w0 with ovA := { sock := some (some 0) },
            socks := [{ closed := false, tcp := true, buf := ["stale\n"],
                        sent := [] }] }

example : wConn.connectedOf .a = true := by decide
example : sockReady wConn .a = true := by decide
example : (query devOut .a "getOutput?" wConn).1 = .ok "23.5,NaN,-1.2" := by decide

section WorldLemmas

variable (w : World) (i j : IId) (v : Sev) (m : String) (sid sid2 : Nat)
variable (s s2 : SockSt)

@[simp] theorem cls_addLog : (w.addLog v m).cls = w.cls := rfl

@[simp] theorem socks_addLog : (w.addLog v m).socks = w.socks := rfl

@[simp] theorem log_addLog : (w.addLog v m).log = w.log ++ [(v, m)] := rfl

@[simp] theorem ov_addLog : (w.addLog v m).ov i = w.ov i := by cases i <;> rfl

@[simp] theorem sockOf_addLog : (w.addLog v m).sockOf i = w.sockOf i := by
  cases i <;> rfl

@[simp] theorem connectedOf_addLog : (w.addLog v m).connectedOf i = w.connectedOf i := by
  cases i <;> rfl

@[simp] theorem successOf_addLog : (w.addLog v m).successOf i = w.successOf i := by
  cases i <;> rfl

@[simp] theorem namesOf_addLog : (w.addLog v m).namesOf i = w.namesOf i := by
  cases i <;> rfl

@[simp] theorem readSock_addLog : (w.addLog v m).readSock sid = w.readSock sid := rfl

@[simp] theorem cls_writeSock : (w.writeSock sid s).cls = w.cls := rfl

@[simp] theorem log_writeSock : (w.writeSock sid s).log = w.log := rfl

@[simp] theorem ov_writeSock : (w.writeSock sid s).ov i = w.ov i := by cases i <;> rfl

@[simp] theorem sockOf_writeSock : (w.writeSock sid s).sockOf i = w.sockOf i := by
  cases i <;> rfl

@[simp] theorem connectedOf_writeSock :
    (w.writeSock sid s).connectedOf i = w.connectedOf i := by cases i <;> rfl

@[simp] theorem successOf_writeSock :
    (w.writeSock sid s).successOf i = w.successOf i := by cases i <;> rfl

@[simp] theorem namesOf_writeSock :
    (w.writeSock sid s).namesOf i = w.namesOf i := by cases i <;> rfl

theorem readSock_writeSock_self (h : w.readSock sid = some s2) :
    (w.writeSock sid s).readSock sid = some s := by
  unfold World.readSock at h ⊢
  unfold World.writeSock
  rw [List.get?_eq_getElem?] at h ⊢
  rw [List.getElem?_set_self']
  simp [h]

@[simp] theorem readSock_writeSock_eq :
    (w.writeSock sid s).readSock sid = (w.readSock sid).map (fun _ => s) := by
  unfold World.readSock World.writeSock
  rw [List.get?_eq_getElem?, List.get?_eq_getElem?]
  exact List.getElem?_set_self' ..

theorem readSock_writeSock_ne (h : sid2 ≠ sid) :
    (w.writeSock sid s).readSock sid2 = w.readSock sid2 := by
  unfold World.readSock World.writeSock
  simp [List.get?_eq_getElem?, List.getElem?_set_ne (fun hh => h hh.symm)]

theorem writeSock_writeSock :
    (w.writeSock sid s).writeSock sid s2 = w.writeSock sid s2 := by
  unfold World.writeSock
  simp [List.set_set]

@[simp] theorem fst_allocSock : w.allocSock.1 = w.socks.length := rfl

@[simp] theorem cls_allocSock : w.allocSock.2.cls = w.cls := rfl

@[simp] theorem log_allocSock : w.allocSock.2.log = w.log := rfl

@[simp] theorem ov_allocSock : w.allocSock.2.ov i = w.ov i := by cases i <;> rfl

@[simp] theorem sockOf_allocSock : w.allocSock.2.sockOf i = w.sockOf i := by
  cases i <;> rfl

@[simp] theorem connectedOf_allocSock :
    w.allocSock.2.connectedOf i = w.connectedOf i := by cases i <;> rfl

@[simp] theorem successOf_allocSock :
    w.allocSock.2.successOf i = w.successOf i := by cases i <;> rfl

@[simp] theorem namesOf_allocSock : w.allocSock.2.namesOf i = w.namesOf i := by
  cases i <;> rfl

@[simp] theorem readSock_allocSock_len :
    w.allocSock.2.readSock w.socks.length = some {} := by
  unfold World.readSock World.allocSock
  simp [List.get?_eq_getElem?, List.getElem?_concat_length]

theorem readSock_allocSock_old (h : w.readSock sid = some s) :
    w.allocSock.2.readSock sid = some s := by
  unfold World.readSock at h
  unfold World.readSock World.allocSock
  rw [List.get?_eq_getElem?] at h ⊢
  have hlt : sid < w.socks.length := by
    by_contra hge
    rw [List.getElem?_eq_none (Nat.le_of_not_lt hge)] at h
    exact Option.noConfusion h
  rw [List.getElem?_append_left hlt]
  exact h

end WorldLemmas

section SetterLemmas

variable (w : World) (i j : IId) (sid : Nat)

@[simp] theorem cls_setSock (v : Option Nat) : (w.setSock i v).cls = w.cls := by
  cases i <;> rfl

@[simp] theorem socks_setSock (v : Option Nat) : (w.setSock i v).socks = w.socks := by
  cases i <;> rfl

@[simp] theorem log_setSock (v : Option Nat) : (w.setSock i v).log = w.log := by
  cases i <;> rfl

@[simp] theorem readSock_setSock (v : Option Nat) :
    (w.setSock i v).readSock sid = w.readSock sid := by cases i <;> rfl

@[simp] theorem sockOf_setSock_self (v : Option Nat) :
    (w.setSock i v).sockOf i = v := by cases i <;> rfl

theorem sockOf_setSock_ne (v : Option Nat) (h : j ≠ i) :
    (w.setSock i v).sockOf j = w.sockOf j := by
  cases i <;> cases j <;> first | rfl | exact absurd rfl h

@[simp] theorem connectedOf_setSock (v : Option Nat) :
    (w.setSock i v).connectedOf j = w.connectedOf j := by cases i <;> cases j <;> rfl

@[simp] theorem successOf_setSock (v : Option Nat) :
    (w.setSock i v).successOf j = w.successOf j := by cases i <;> cases j <;> rfl

@[simp] theorem namesOf_setSock (v : Option Nat) :
    (w.setSock i v).namesOf j = w.namesOf j := by cases i <;> cases j <;> rfl

@[simp] theorem cls_setConnected (v : Bool) : (w.setConnected i v).cls = w.cls := by
  cases i <;> rfl

@[simp] theorem socks_setConnected (v : Bool) :
    (w.setConnected i v).socks = w.socks := by cases i <;> rfl

@[simp] theorem log_setConnected (v : Bool) : (w.setConnected i v).log = w.log := by
  cases i <;> rfl

@[simp] theorem readSock_setConnected (v : Bool) :
    (w.setConnected i v).readSock sid = w.readSock sid := by cases i <;> rfl

@[simp] theorem connectedOf_setConnected_self (v : Bool) :
    (w.setConnected i v).connectedOf i = v := by cases i <;> rfl

theorem connectedOf_setConnected_ne (v : Bool) (h : j ≠ i) :
    (w.setConnected i v).connectedOf j = w.connectedOf j := by
  cases i <;> cases j <;> first | rfl | exact absurd rfl h

@[simp] theorem sockOf_setConnected (v : Bool) :
    (w.setConnected i v).sockOf j = w.sockOf j := by cases i <;> cases j <;> rfl

@[simp] theorem successOf_setConnected (v : Bool) :
    (w.setConnected i v).successOf j = w.successOf j := by cases i <;> cases j <;> rfl

@[simp] theorem namesOf_setConnected (v : Bool) :
    (w.setConnected i v).namesOf j = w.namesOf j := by cases i <;> cases j <;> rfl

@[simp] theorem cls_setSuccess (v : Bool) : (w.setSuccess i v).cls = w.cls := by
  cases i <;> rfl

@[simp] theorem socks_setSuccess (v : Bool) : (w.setSuccess i v).socks = w.socks := by
  cases i <;> rfl

@[simp] theorem log_setSuccess (v : Bool) : (w.setSuccess i v).log = w.log := by
  cases i <;> rfl

@[simp] theorem readSock_setSuccess (v : Bool) :
    (w.setSuccess i v).readSock sid = w.readSock sid := by cases i <;> rfl

@[simp] theorem successOf_setSuccess_self (v : Bool) :
    (w.setSuccess i v).successOf i = v := by cases i <;> rfl

theorem successOf_setSuccess_ne (v : Bool) (h : j ≠ i) :
    (w.setSuccess i v).successOf j = w.successOf j := by
  cases i <;> cases j <;> first | rfl | exact absurd rfl h

@[simp] theorem sockOf_setSuccess (v : Bool) :
    (w.setSuccess i v).sockOf j = w.sockOf j := by cases i <;> cases j <;> rfl

@[simp] theorem connectedOf_setSuccess (v : Bool) :
    (w.setSuccess i v).connectedOf j = w.connectedOf j := by
  cases i <;> cases j <;> rfl

@[simp] theorem namesOf_setSuccess (v : Bool) :
    (w.setSuccess i v).namesOf j = w.namesOf j := by cases i <;> cases j <;> rfl

@[simp] theorem cls_setNames (v : Option (List String)) :
    (w.setNames i v).cls = w.cls := by cases i <;> rfl

@[simp] theorem socks_setNames (v : Option (List String)) :
    (w.setNames i v).socks = w.socks := by cases i <;> rfl

@[simp] theorem log_setNames (v : Option (List String)) :
    (w.setNames i v).log = w.log := by cases i <;> rfl

@[simp] theorem readSock_setNames (v : Option (List String)) :
    (w.setNames i v).readSock sid = w.readSock sid := by cases i <;> rfl

@[simp] theorem namesOf_setNames_self (v : Option (List String)) :
    (w.setNames i v).namesOf i = v := by cases i <;> rfl

theorem namesOf_setNames_ne (v : Option (List String)) (h : j ≠ i) :
    (w.setNames i v).namesOf j = w.namesOf j := by
  cases i <;> cases j <;> first | rfl | exact absurd rfl h

@[simp] theorem sockOf_setNames (v : Option (List String)) :
    (w.setNames i v).sockOf j = w.sockOf j := by cases i <;> cases j <;> rfl

@[simp] theorem connectedOf_setNames (v : Option (List String)) :
    (w.setNames i v).connectedOf j = w.connectedOf j := by
  cases i <;> cases j <;> rfl

@[simp] theorem successOf_setNames (v : Option (List String)) :
    (w.setNames i v).successOf j = w.successOf j := by cases i <;> cases j <;> rfl

end SetterLemmas

section OpLemmas

/-- With a live connected socket, `write` frames the command with one
newline, sends it, and queues the controller's reply. -/
theorem write_ready (device : String → String) (i : IId) (msg : String)
    (w : World) (sid : Nat) (s : SockSt) (hs : w.sockOf i = some sid)
    (hr : w.readSock sid = some s) (hc : s.closed = false) (ht : s.tcp = true) :
    write device i msg w =
      (.ok (), (w.addLog .debug ("Sending: " ++ msg)).writeSock sid
        { s with sent := s.sent ++ [msg ++ "\n"],
                 buf := s.buf ++ [device (msg ++ "\n")] }) := by
  unfold write osSendall
  simp [hs, hr, hc, ht]

/-- With a live connected socket holding a buffered chunk, `read` pops
that chunk and returns it stripped. -/
theorem read_ready (i : IId) (w : World) (sid : Nat) (s : SockSt)
    (chunk : String) (rest : List String) (hs : w.sockOf i = some sid)
    (hr : w.readSock sid = some s) (hc : s.closed = false) (ht : s.tcp = true)
    (hb : s.buf = chunk :: rest) :
    read i w =
      (.ok (pyStrip chunk),
        (w.writeSock sid { s with buf := rest }).addLog .debug
          ("Received: " ++ pyStrip chunk)) := by
  unfold read osRecv
  simp [hs, hr, hc, ht, hb]

/-- With a live connected socket and no stale buffered bytes, `query`
returns exactly the controller's stripped reply to the framed command,
and leaves the buffer empty again. -/
theorem query_ready (device : String → String) (i : IId) (msg : String)
    (w : World) (sid : Nat) (s : SockSt) (hs : w.sockOf i = some sid)
    (hr : w.readSock sid = some s) (hc : s.closed = false) (ht : s.tcp = true)
    (hb : s.buf = []) :
    query device i msg w =
      (.ok (pyStrip (device (msg ++ "\n"))),
        ((w.addLog .debug ("Sending: " ++ msg)).writeSock sid
            { s with sent := s.sent ++ [msg ++ "\n"], buf := [] }).addLog .debug
          ("Received: " ++ pyStrip (device (msg ++ "\n")))) := by
  unfold query
  rw [write_ready device i msg w sid s hs hr hc ht]
  dsimp only
  rw [read_ready i _ sid
      { s with sent := s.sent ++ [msg ++ "\n"], buf := s.buf ++ [device (msg ++ "\n")] }
      (device (msg ++ "\n")) []
      (by simp [hs]) (readSock_writeSock_self _ _ _ s (by simp [hr]))
      (by simp [hc]) (by simp [ht]) (by simp [hb])]
  rw [writeSock_writeSock]

/-- The drain loop discards the whole buffer. -/
theorem drainBuf_nil : ∀ l : List String, drainBuf l = []
  | [] => rfl
  | _ :: t => drainBuf_nil t

/-- With the registry cache populated, `validate_channel_name` is a pure
membership test: no wire traffic, no state change, no event. -/
theorem validate_cached (device : String → String) (i : IId) (name : String)
    (w : World) (ns : List String) (h : w.namesOf i = some ns) :
    validate_channel_name device i name w = (.ok (ns.contains name), w) := by
  unfold validate_channel_name
  simp [h]

/-- The `get_all_values` comprehension, when every field is the literal
`"NaN"` token or parses, maps the fields in order: the token to the NaN
sentinel without a parse, everything else through `float`. -/
theorem parseFields_ok (l : List String)
    (h : ∀ f ∈ l, f = "NaN" ∨ (pyFloat f).isSome = true) :
    parseFields l =
      .ok (l.map fun f => if f = "NaN" then PyVal.nan else (pyFloat f).getD PyVal.nan) := by
  induction l with
  | nil => rfl
  | cons v rest ih =>
    have hv := h v (List.mem_cons_self v rest)
    have hrest : ∀ f ∈ rest, f = "NaN" ∨ (pyFloat f).isSome = true :=
      fun f hf => h f (List.mem_cons_of_mem v hf)
    unfold parseFields
    rcases hv with hv | hv
    · simp [hv, ih hrest]
    · rcases Option.isSome_iff_exists.mp hv with ⟨x, hx⟩
      by_cases hnan : v = "NaN"
      · simp [hnan, ih hrest]
      · simp [hnan, hx, ih hrest]

/-- `write` never raises `ValueError`. -/
theorem write_no_valueErr (device : String → String) (i : IId) (msg : String)
    (w : World) : isValueErr (write device i msg w).1 = false := by
  unfold write osSendall
  dsimp only
  repeat' split
  all_goals rfl

/-- `read` never raises `ValueError`. -/
theorem read_no_valueErr (i : IId) (w : World) :
    isValueErr (read i w).1 = false := by
  unfold read osRecv
  dsimp only
  repeat' split
  all_goals rfl

/-- `query` never raises `ValueError`. -/
theorem query_no_valueErr (device : String → String) (i : IId) (msg : String)
    (w : World) : isValueErr (query device i msg w).1 = false := by
  unfold query
  have hw := write_no_valueErr device i msg w
  rcases hmatch : write device i msg w with ⟨r, w2⟩
  rw [hmatch] at hw
  cases r with
  | ok a => exact read_no_valueErr i w2
  | error e => cases e <;> exact hw

/-- `get_channel_names` never raises `ValueError`. -/
theorem gcn_no_valueErr (device : String → String) (i : IId) (w : World) :
    isValueErr (get_channel_names device i w).1 = false := by
  unfold get_channel_names
  have hq := query_no_valueErr device i "getOutputNames?" w
  rcases hmatch : query device i "getOutputNames?" w with ⟨r, w2⟩
  rw [hmatch] at hq
  cases r with
  | ok a => rfl
  | error e => cases e <;> exact hq

/-- `validate_channel_name` never raises `ValueError`. -/
theorem validate_no_valueErr (device : String → String) (i : IId)
    (name : String) (w : World) :
    isValueErr (validate_channel_name device i name w).1 = false := by
  unfold validate_channel_name
  cases hn : w.namesOf i with
  | none =>
    have hg := gcn_no_valueErr device i w
    rcases hmatch : get_channel_names device i w with ⟨r, w2⟩
    rw [hmatch] at hg
    cases r with
    | ok a => rfl
    | error e => cases e <;> exact hg
  | some ns => rfl

/-- Without a usable stream, `write` raises `IOError` (the wrapped
`AttributeError` or `OSError`), not any other exception kind. -/
theorem write_notConn (device : String → String) (i : IId) (msg : String)
    (w : World) (h : sockUsable w i = false) :
    isIOErr (write device i msg w).1 = true := by
  unfold sockUsable at h
  unfold write osSendall
  dsimp only
  cases hso : w.sockOf i with
  | none => simp [hso, isIOErr]
  | some sid =>
    rw [hso] at h
    dsimp only at h
    cases hrs : w.readSock sid with
    | none => simp [hso, hrs, isIOErr]
    | some s =>
      rw [hrs] at h
      dsimp only at h
      cases hc : s.closed with
      | true => simp [hso, hrs, hc, isIOErr]
      | false =>
        rw [hc] at h
        simp at h
        simp [hso, hrs, hc, h, isIOErr]

/-- Without a usable stream, `read` raises `IOError`. -/
theorem read_notConn (i : IId) (w : World) (h : sockUsable w i = false) :
    isIOErr (read i w).1 = true := by
  unfold sockUsable at h
  unfold read osRecv
  dsimp only
  cases hso : w.sockOf i with
  | none => simp [hso, isIOErr]
  | some sid =>
    rw [hso] at h
    dsimp only at h
    cases hrs : w.readSock sid with
    | none => simp [hso, hrs, isIOErr]
    | some s =>
      rw [hrs] at h
      dsimp only at h
      cases hc : s.closed with
      | true => simp [hso, hrs, hc, isIOErr]
      | false =>
        rw [hc] at h
        simp at h
        simp [hso, hrs, hc, h, isIOErr]

/-- Without a usable stream, `query` raises `IOError` (from its `write`
half, before anything is sent). -/
theorem query_notConn (device : String → String) (i : IId) (msg : String)
    (w : World) (h : sockUsable w i = false) :
    isIOErr (query device i msg w).1 = true := by
  unfold query
  have hw := write_notConn device i msg w h
  rcases hmatch : write device i msg w with ⟨r, w2⟩
  rw [hmatch] at hw
  cases r with
  | ok a => exact absurd hw (by simp [isIOErr])
  | error e => cases e <;> exact hw

/-- Behavior of `connect`: it never raises (the drain loop only ever runs
on a usable stream); whenever it leaves the liveness flag true the stream
is usable and fully drained; a first connect on a fresh instance with an
accepting peer succeeds; and a connect attempt on an already-usable
stream hits `EISCONN`, which is treated as success. -/
theorem connect_spec (acc : Bool) (host : String) (port : Nat) (i : IId)
    (w : World) :
    (connect acc host port i w).1 = .ok () ∧
    ((connect acc host port i w).2.connectedOf i = true →
      sockReady (connect acc host port i w).2 i = true) ∧
    (w.sockOf i = none → acc = true →
      (connect acc host port i w).2.connectedOf i = true ∧
      (connect acc host port i w).2.successOf i = true) ∧
    (sockUsable w i = true →
      (connect acc host port i w).2.connectedOf i = true ∧
      (connect acc host port i w).2.successOf i = true) := by
  unfold connect clear_socket osConnect
  dsimp only
  cases hso : w.sockOf i with
  | none =>
    cases acc with
    | true =>
      simp [hso, sockReady, sockUsable, drainBuf_nil]
    | false =>
      simp [hso, sockUsable]
  | some sid =>
    cases hrs : w.readSock sid with
    | none =>
      simp [hso, hrs, sockUsable]
    | some s =>
      cases hc : s.closed with
      | true =>
        simp [hso, hrs, hc, sockUsable]
      | false =>
        cases htc : s.tcp with
        | true =>
          simp [hso, hrs, hc, htc, sockReady, sockUsable, drainBuf_nil]
        | false =>
          cases acc with
          | true =>
            simp [hso, hrs, hc, htc, sockReady, sockUsable, drainBuf_nil]
          | false =>
            simp [hso, hrs, hc, htc, sockUsable]

/-- `get_channel_value` never raises `ValueError`: the parse failure is
caught and converted to the NaN sentinel, and nothing below it raises
one. -/
theorem gcv_no_valueErr (device : String → String) (i : IId) (ch : String)
    (w : World) : isValueErr (get_channel_value device i ch w).1 = false := by
  unfold get_channel_value
  have hv := validate_no_valueErr device i ch w
  rcases hmatch : validate_channel_name device i ch w with ⟨r, w2⟩
  rw [hmatch] at hv
  cases r with
  | error e => cases e <;> exact hv
  | ok b =>
    cases b with
    | false => rfl
    | true =>
      dsimp only
      have hq := query_no_valueErr device i (removeSpaces ch ++ "?")
        (w2.addLog .debug ("Channel name validated: " ++ ch))
      rcases hq2 : query device i (removeSpaces ch ++ "?")
          (w2.addLog .debug ("Channel name validated: " ++ ch)) with ⟨r2, w3⟩
      rw [hq2] at hq
      cases r2 with
      | error e => cases e <;> exact hq
      | ok resp =>
        dsimp only
        cases hpf : pyFloat resp <;> rfl

/-- Unpack a ready socket into its handle, object and facts. -/
theorem sockReady_elim (w : World) (i : IId) (h : sockReady w i = true) :
    ∃ sid s, w.sockOf i = some sid ∧ w.readSock sid = some s ∧
      s.closed = false ∧ s.tcp = true ∧ s.buf = [] := by
  unfold sockReady at h
  cases hso : w.sockOf i with
  | none => rw [hso] at h; exact absurd h (by simp)
  | some sid =>
    rw [hso] at h
    dsimp only at h
    cases hrs : w.readSock sid with
    | none => rw [hrs] at h; exact absurd h (by simp)
    | some s =>
      rw [hrs] at h
      dsimp only at h
      simp only [Bool.and_eq_true, Bool.not_eq_true'] at h
      exact ⟨sid, s, by simp [hso], by simp [hrs], h.1.1, h.1.2,
        by simpa [List.isEmpty_iff] using h.2⟩

/-- An outcome that is a raised `IOError` is not a raised
`ProtocolError`. -/
theorem isProtoErr_of_isIOErr {α : Type} (r : Except PyErr α)
    (h : isIOErr r = true) : isProtoErr r = false := by
  cases r with
  | ok a => exact absurd h (by simp [isIOErr])
  | error e => cases e <;> first | rfl | exact absurd h (by simp [isIOErr])

/-- With a live connected socket and no stale bytes, `get_channel_names`
returns the comma-split, stripped reply to `"getOutputNames?"`. -/
theorem gcn_ready (device : String → String) (i : IId) (w : World)
    (sid : Nat) (s : SockSt) (hs : w.sockOf i = some sid)
    (hr : w.readSock sid = some s) (hc : s.closed = false) (ht : s.tcp = true)
    (hb : s.buf = []) :
    get_channel_names device i w =
      (.ok ((pySplit ',' (pyStrip (device ("getOutputNames?" ++ "\n")))).map pyStrip),
        ((((w.addLog .debug ("Sending: " ++ "getOutputNames?")).writeSock sid
              { s with sent := s.sent ++ ["getOutputNames?" ++ "\n"], buf := [] }).addLog .debug
            ("Received: " ++ pyStrip (device ("getOutputNames?" ++ "\n")))).addLog .debug
          "Channel names")) := by
  unfold get_channel_names
  rw [query_ready device i "getOutputNames?" w sid s hs hr hc ht hb]

end OpLemmas

section FrameLemmas

variable (w : World) (i j : IId)

theorem ov_setSock_ne (v : Option Nat) (h : j ≠ i) :
    (w.setSock i v).ov j = w.ov j := by
  cases i <;> cases j <;> first | rfl | exact absurd rfl h

theorem ov_setConnected_ne (v : Bool) (h : j ≠ i) :
    (w.setConnected i v).ov j = w.ov j := by
  cases i <;> cases j <;> first | rfl | exact absurd rfl h

theorem ov_setSuccess_ne (v : Bool) (h : j ≠ i) :
    (w.setSuccess i v).ov j = w.ov j := by
  cases i <;> cases j <;> first | rfl | exact absurd rfl h

theorem ov_setNames_ne (v : Option (List String)) (h : j ≠ i) :
    (w.setNames i v).ov j = w.ov j := by
  cases i <;> cases j <;> first | rfl | exact absurd rfl h

/-- Reads of an instance depend only on its overrides and the class
attributes. -/
theorem obsOf_congr (w2 : World) (hc : w2.cls = w.cls) (ho : w2.ov j = w.ov j) :
    obsOf w2 j = obsOf w j := by
  unfold obsOf World.sockOf World.connectedOf World.successOf World.namesOf
  rw [hc, ho]

/-- `write` touches no attribute of any instance and no class attribute. -/
theorem write_frame (device : String → String) (i : IId) (msg : String)
    (w : World) (j : IId) :
    (write device i msg w).2.cls = w.cls ∧ (write device i msg w).2.ov j = w.ov j := by
  unfold write osSendall
  dsimp only
  cases hso : w.sockOf i with
  | none => simp [hso]
  | some sid =>
    cases hrs : w.readSock sid with
    | none => simp [hso, hrs]
    | some s =>
      cases hc : s.closed with
      | true => simp [hso, hrs, hc]
      | false =>
        cases ht : s.tcp with
        | true => simp [hso, hrs, hc, ht]
        | false => simp [hso, hrs, hc, ht]

/-- `read` touches no attribute of any instance and no class attribute. -/
theorem read_frame (i : IId) (w : World) (j : IId) :
    (read i w).2.cls = w.cls ∧ (read i w).2.ov j = w.ov j := by
  unfold read osRecv
  dsimp only
  cases hso : w.sockOf i with
  | none => simp [hso]
  | some sid =>
    cases hrs : w.readSock sid with
    | none => simp [hso, hrs]
    | some s =>
      cases hc : s.closed with
      | true => simp [hso, hrs, hc]
      | false =>
        cases ht : s.tcp with
        | false => simp [hso, hrs, hc, ht]
        | true =>
          cases hb : s.buf with
          | nil => simp [hso, hrs, hc, ht, hb]
          | cons c rest => simp [hso, hrs, hc, ht, hb]

/-- `query` touches no attribute of any instance and no class attribute. -/
theorem query_frame (device : String → String) (i : IId) (msg : String)
    (w : World) (j : IId) :
    (query device i msg w).2.cls = w.cls ∧ (query device i msg w).2.ov j = w.ov j := by
  unfold query
  have hw := write_frame device i msg w j
  rcases hm : write device i msg w with ⟨r, w2⟩
  rw [hm] at hw
  cases r with
  | error e => exact hw
  | ok a =>
    have hr := read_frame i w2 j
    exact ⟨hr.1.trans hw.1, hr.2.trans hw.2⟩

/-- `get_channel_names` touches no attribute and no class attribute. -/
theorem gcn_frame (device : String → String) (i : IId) (w : World) (j : IId) :
    (get_channel_names device i w).2.cls = w.cls ∧
    (get_channel_names device i w).2.ov j = w.ov j := by
  unfold get_channel_names
  have hq := query_frame device i "getOutputNames?" w j
  rcases hm : query device i "getOutputNames?" w with ⟨r, w2⟩
  rw [hm] at hq
  cases r with
  | error e => exact hq
  | ok a => exact ⟨by simpa using hq.1, by simpa using hq.2⟩

/-- `get_all_values` touches no attribute and no class attribute. -/
theorem gav_frame (device : String → String) (i : IId) (w : World) (j : IId) :
    (get_all_values device i w).2.cls = w.cls ∧
    (get_all_values device i w).2.ov j = w.ov j := by
  unfold get_all_values
  have hq := query_frame device i "getOutput?" w j
  rcases hm : query device i "getOutput?" w with ⟨r, w2⟩
  rw [hm] at hq
  cases r with
  | error e => exact hq
  | ok a =>
    dsimp only
    cases hp : parseFields (pySplit ',' a) with
    | error e => exact hq
    | ok vs => exact ⟨by simpa using hq.1, by simpa using hq.2⟩

/-- `validate_channel_name` on one instance writes only that instance's
cache attribute. -/
theorem validate_frame (device : String → String) (i : IId) (ch : String)
    (w : World) (j : IId) (h : j ≠ i) :
    (validate_channel_name device i ch w).2.cls = w.cls ∧
    (validate_channel_name device i ch w).2.ov j = w.ov j := by
  unfold validate_channel_name
  cases hn : w.namesOf i with
  | some ns => exact ⟨rfl, rfl⟩
  | none =>
    have hg := gcn_frame device i w j
    rcases hm : get_channel_names device i w with ⟨r, w2⟩
    rw [hm] at hg
    cases r with
    | error e => exact hg
    | ok names =>
      refine ⟨by simpa using hg.1, ?_⟩
      dsimp only
      rw [ov_setNames_ne w2 i j (some names) h]
      exact hg.2

/-- `get_channel_value` on one instance writes only that instance's
attributes. -/
theorem gcv_frame (device : String → String) (i : IId) (ch : String)
    (w : World) (j : IId) (h : j ≠ i) :
    (get_channel_value device i ch w).2.cls = w.cls ∧
    (get_channel_value device i ch w).2.ov j = w.ov j := by
  unfold get_channel_value
  have hv := validate_frame device i ch w j h
  rcases hm : validate_channel_name device i ch w with ⟨r, w2⟩
  rw [hm] at hv
  cases r with
  | error e => exact hv
  | ok b =>
    cases b with
    | false => exact ⟨by simpa using hv.1, by simpa using hv.2⟩
    | true =>
      dsimp only
      have hq := query_frame device i (removeSpaces ch ++ "?")
        (w2.addLog .debug ("Channel name validated: " ++ ch)) j
      rcases hm2 : query device i (removeSpaces ch ++ "?")
          (w2.addLog .debug ("Channel name validated: " ++ ch)) with ⟨r2, w3⟩
      rw [hm2] at hq
      have hq1 : w3.cls = w.cls := by simpa using hq.1.trans (by simpa using hv.1)
      have hq2 : w3.ov j = w.ov j := by simpa using hq.2.trans (by simpa using hv.2)
      cases r2 with
      | error e => exact ⟨hq1, hq2⟩
      | ok resp =>
        dsimp only
        cases hp : pyFloat resp with
        | some v => exact ⟨by simpa using hq1, by simpa using hq2⟩
        | none => exact ⟨by simpa using hq1, by simpa using hq2⟩

/-- `disconnect` touches no attribute of any instance and no class
attribute. -/
theorem disconnect_frame (i : IId) (w : World) (j : IId) :
    (disconnect i w).2.cls = w.cls ∧ (disconnect i w).2.ov j = w.ov j := by
  unfold disconnect
  dsimp only
  cases hso : w.sockOf i with
  | none => simp [hso]
  | some sid =>
    cases hrs : w.readSock sid with
    | none => simp [hso, hrs]
    | some s => simp [hso, hrs]

/-- `connect` on one instance writes only that instance's attributes and
its own socket object. -/
theorem connect_frame (acc : Bool) (host : String) (port : Nat) (i : IId)
    (w : World) (j : IId) (h : j ≠ i) :
    (connect acc host port i w).2.cls = w.cls ∧
    (connect acc host port i w).2.ov j = w.ov j := by
  unfold connect clear_socket osConnect
  dsimp only
  cases hso : w.sockOf i with
  | none =>
    cases acc with
    | true =>
      simp [hso, ov_setSock_ne, ov_setConnected_ne, ov_setSuccess_ne, h, drainBuf_nil]
    | false =>
      simp [hso, ov_setSock_ne, ov_setConnected_ne, ov_setSuccess_ne, h]
  | some sid =>
    cases hrs : w.readSock sid with
    | none => simp [hso, hrs, ov_setConnected_ne, ov_setSuccess_ne, h]
    | some s =>
      cases hc : s.closed with
      | true => simp [hso, hrs, hc, ov_setConnected_ne, ov_setSuccess_ne, h]
      | false =>
        cases htc : s.tcp with
        | true =>
          simp [hso, hrs, hc, htc, ov_setConnected_ne, ov_setSuccess_ne, h, drainBuf_nil]
        | false =>
          cases acc with
          | true =>
            simp [hso, hrs, hc, htc, ov_setConnected_ne, ov_setSuccess_ne, h, drainBuf_nil]
          | false =>
            simp [hso, hrs, hc, htc, ov_setConnected_ne, ov_setSuccess_ne, h]

end FrameLemmas

section Claims

/-- C1, counterexample: the claim includes `get_all_values` among the
accessors that never propagate the parse `ValueError`, but on a connected
instance whose controller replies `"ERR"` to `getOutput?`,
`get_all_values` raises `ValueError` to its caller. -/
theorem c1_counterexample :
    (get_all_values devERR IId.a wConn).1 =
      .error (.valueError ("could not convert string to float: " ++ "ERR")) := by
  decide

/-- C1 (amended): for `get_channel_value` on a valid channel, a reply
that fails to parse as a float is converted to the NaN sentinel and
reported as an error event, and the parse `ValueError` is never
propagated out of `get_channel_value`; `get_all_values`, by contrast,
converts only the literal `"NaN"` token and propagates the `ValueError`
of any other unparseable field. -/
theorem c1_parse_failure_behavior (device : String → String) (i : IId)
    (ch : String) (w : World) :
    isValueErr (get_channel_value device i ch w).1 = false ∧
    (∀ ns sid s, w.namesOf i = some ns → ch ∈ ns →
      w.sockOf i = some sid → w.readSock sid = some s →
      s.closed = false → s.tcp = true → s.buf = [] →
      pyFloat (pyStrip (device (removeSpaces ch ++ "?" ++ "\n"))) = none →
      (get_channel_value device i ch w).1 = .ok PyVal.nan ∧
      ((get_channel_value device i ch w).2.log).getLast? =
        some (Sev.error, "Invalid float returned for channel " ++ ch ++ ": " ++
          pyStrip (device (removeSpaces ch ++ "?" ++ "\n")))) := by
  refine ⟨gcv_no_valueErr device i ch w, ?_⟩
  intro ns sid s hn hmem hs hr hc ht hb hpf
  have hcont : ns.contains ch = true := by simpa using hmem
  unfold get_channel_value
  rw [validate_cached device i ch w ns hn, hcont]
  dsimp only
  rw [query_ready device i (removeSpaces ch ++ "?")
      (w.addLog .debug ("Channel name validated: " ++ ch)) sid s
      (by simp [hs]) (by simp [hr]) hc ht hb]
  dsimp only
  rw [hpf]
  exact ⟨rfl, by simp⟩

/-- C1, witness at a concrete input: a populated cache, a connected
socket, and the malformed reply `"ERR"`. -/
theorem c1_witness :
    pyFloat (pyStrip (devERR (removeSpaces "3A" ++ "?" ++ "\n"))) = none ∧
    isValueErr (get_channel_value devERR IId.a "3A" wC1).1 = false ∧
    (get_channel_value devERR IId.a "3A" wC1).1 = .ok PyVal.nan ∧
    ((get_channel_value devERR IId.a "3A" wC1).2.log).getLast? =
      some (Sev.error, "Invalid float returned for channel 3A: ERR") := by
  have h := c1_parse_failure_behavior devERR IId.a "3A" wC1
  have h2 := h.2 ["3A", "Out 1"] 0
    { closed := false, tcp := true, buf := [], sent := [] }
    (by decide) (by decide) (by decide) (by decide) (by decide) (by decide)
    (by decide) (by decide)
  exact ⟨by decide, h.1, h2.1, h2.2.trans (by decide)⟩

/-- C2 (confirmed): with the registry cache populated, a channel name not
in the cache makes `get_channel_value` return the NaN sentinel, log an
error event, and leave every socket object untouched — nothing is sent
over the transport. -/
theorem c2_invalid_channel_no_wire (device : String → String) (i : IId)
    (ch : String) (w : World) (ns : List String)
    (hn : w.namesOf i = some ns) (hm : ch ∉ ns) :
    (get_channel_value device i ch w).1 = .ok PyVal.nan ∧
    (get_channel_value device i ch w).2.socks = w.socks ∧
    (get_channel_value device i ch w).2.log =
      w.log ++ [(Sev.error, "Invalid channel name: " ++ ch)] := by
  have hcont : ns.contains ch = false := by simpa using hm
  unfold get_channel_value
  rw [validate_cached device i ch w ns hn, hcont]
  dsimp only
  exact ⟨rfl, by simp, by simp⟩

/-- C2, witness: a cached registry `["3A"]` and the unknown name `"XX"`. -/
theorem c2_witness :
    wC2.namesOf IId.a = some ["3A"] ∧ "XX" ∉ ["3A"] ∧
    (get_channel_value devNull IId.a "XX" wC2).1 = .ok PyVal.nan ∧
    (get_channel_value devNull IId.a "XX" wC2).2.socks = wC2.socks := by
  have h := c2_invalid_channel_no_wire devNull IId.a "XX" wC2 ["3A"]
    (by decide) (by decide)
  exact ⟨by decide, by decide, h.1, h.2.1⟩

/-- C3, counterexample: on a freshly constructed instance (no stream),
`write` and `read` fail with `IOError`, not with the `ProtocolError` the
claim requires. -/
theorem c3_counterexample :
    isIOErr (write devNull IId.a "getOutput?" w0).1 = true ∧
    isProtoErr (write devNull IId.a "getOutput?" w0).1 = false ∧
    isIOErr (read IId.a w0).1 = true ∧
    isProtoErr (read IId.a w0).1 = false := by
  decide

/-- C3 (amended): every send, read or query attempted without a usable
stream fails with `IOError` wrapping the underlying cause; the code
defines no `ProtocolError`, so no not-connected operation ever fails
with one. -/
theorem c3_not_connected_ioerror (device : String → String) (i : IId)
    (msg : String) (w : World) (h : sockUsable w i = false) :
    isIOErr (write device i msg w).1 = true ∧
    isIOErr (read i w).1 = true ∧
    isIOErr (query device i msg w).1 = true ∧
    isProtoErr (write device i msg w).1 = false ∧
    isProtoErr (read i w).1 = false ∧
    isProtoErr (query device i msg w).1 = false := by
  have hw := write_notConn device i msg w h
  have hr := read_notConn i w h
  have hq := query_notConn device i msg w h
  exact ⟨hw, hr, hq, isProtoErr_of_isIOErr _ hw, isProtoErr_of_isIOErr _ hr,
    isProtoErr_of_isIOErr _ hq⟩

/-- C3, witness: the fresh world, whose instance has no stream. -/
theorem c3_witness :
    sockUsable w0 IId.a = false ∧
    isIOErr (query devNull IId.a "*IDN?" w0).1 = true ∧
    isProtoErr (query devNull IId.a "*IDN?" w0).1 = false := by
  have h := c3_not_connected_ioerror devNull IId.a "*IDN?" w0 (by decide)
  exact ⟨by decide, h.2.2.1, h.2.2.2.2.2⟩

/-- C4, counterexample: after `disconnect` on a connected instance the
stream is closed, but the liveness flag is still `true` — the claim's
required `false` (and with it the §3 invariant) fails. -/
theorem c4_counterexample :
    (disconnect IId.a wConn).1 = .ok () ∧
    streamClosed (disconnect IId.a wConn).2 IId.a = true ∧
    (disconnect IId.a wConn).2.connectedOf IId.a = true := by
  decide

/-- C4 (amended): `disconnect` on an instance holding a stream object
closes the stream and raises nothing, but leaves the liveness flag
exactly as it was (the method never assigns `connected`), so a
previously-true flag stays true. -/
theorem c4_disconnect_closes_not_flag (i : IId) (w : World) (sid : Nat)
    (s : SockSt) (hs : w.sockOf i = some sid) (hr : w.readSock sid = some s) :
    (disconnect i w).1 = .ok () ∧
    streamClosed (disconnect i w).2 i = true ∧
    (disconnect i w).2.connectedOf i = w.connectedOf i := by
  unfold disconnect streamClosed
  simp [hs, hr]

/-- C4, witness: the connected instance of `wConn`. -/
theorem c4_witness :
    wConn.connectedOf IId.a = true ∧
    (disconnect IId.a wConn).1 = .ok () ∧
    streamClosed (disconnect IId.a wConn).2 IId.a = true ∧
    (disconnect IId.a wConn).2.connectedOf IId.a = wConn.connectedOf IId.a := by
  have h := c4_disconnect_closes_not_flag IId.a wConn 0
    { closed := false, tcp := true, buf := [], sent := [] } (by decide) (by decide)
  exact ⟨by decide, h.1, h.2.1, h.2.2⟩

/-- C5, counterexample: `disconnect` on a freshly constructed,
never-connected instance raises `IOError` (the wrapped `AttributeError`
from `None.close()`), and logs only an info-level event, not a
warning. -/
theorem c5_counterexample :
    isIOErr (disconnect IId.a w0).1 = true ∧
    (disconnect IId.a w0).2.log = [(Sev.info, "Closing connection to controller")] := by
  decide

/-- C5 (amended): `disconnect` on a null stream handle (never-connected
instance) raises `IOError`; with any stream object present — even one
already closed — it does not raise; in both cases the only event it
reports is info-level, never a warning. -/
theorem c5_disconnect_raises_when_null (i : IId) (w : World) :
    (w.sockOf i = none → isIOErr (disconnect i w).1 = true) ∧
    (∀ sid s, w.sockOf i = some sid → w.readSock sid = some s →
      (disconnect i w).1 = .ok ()) ∧
    (disconnect i w).2.log =
      w.log ++ [(Sev.info, "Closing connection to controller")] := by
  refine ⟨?_, ?_, ?_⟩
  · intro h
    unfold disconnect
    simp [h, isIOErr]
  · intro sid s hs hr
    unfold disconnect
    simp [hs, hr]
  · unfold disconnect
    cases hso : w.sockOf i with
    | none => simp [hso]
    | some sid =>
      cases hrs : w.readSock sid with
      | none => simp [hso, hrs]
      | some s => simp [hso, hrs]

/-- C5, witness: the fresh world (null handle) raises `IOError` and
reports only the info event; the connected world does not raise even on
a second disconnect. -/
theorem c5_witness :
    isIOErr (disconnect IId.a w0).1 = true ∧
    (disconnect IId.a w0).2.log =
      w0.log ++ [(Sev.info, "Closing connection to controller")] ∧
    (disconnect IId.a (disconnect IId.a wConn).2).1 = .ok () := by
  refine ⟨(c5_disconnect_raises_when_null IId.a w0).1 (by decide),
    (c5_disconnect_raises_when_null IId.a w0).2.2, ?_⟩
  exact (c5_disconnect_raises_when_null IId.a (disconnect IId.a wConn).2).2.1 0
    { closed := true, tcp := true, buf := [], sent := [] } (by decide) (by decide)

/-- C6, counterexample: on a fresh instance (empty cache, no stream),
`validate_channel_name` raises `IOError` out of its wire fetch — the
claim's "never raises, for every driver state" fails. -/
theorem c6_counterexample :
    isIOErr (validate_channel_name devNull IId.a "3A" w0).1 = true := by
  decide

/-- C6 (amended): with the cache populated, `validate_channel_name`
returns the membership boolean, changes nothing, and cannot raise; on a
first call with a usable drained stream it fetches the list, caches it,
and returns membership in the fetched list — but a first call without a
usable transport raises the fetch's `IOError`. -/
theorem c6_validate_membership (device : String → String) (i : IId)
    (name : String) (w : World) :
    (∀ ns, w.namesOf i = some ns →
      validate_channel_name device i name w = (.ok (ns.contains name), w)) ∧
    (w.namesOf i = none → sockReady w i = true →
      (validate_channel_name device i name w).1 =
        .ok (((pySplit ',' (pyStrip (device ("getOutputNames?" ++ "\n")))).map
          pyStrip).contains name) ∧
      (validate_channel_name device i name w).2.namesOf i =
        some ((pySplit ',' (pyStrip (device ("getOutputNames?" ++ "\n")))).map
          pyStrip)) := by
  refine ⟨fun ns hn => validate_cached device i name w ns hn, ?_⟩
  intro hn hready
  obtain ⟨sid, s, hs, hr, hc, ht, hb⟩ := sockReady_elim w i hready
  unfold validate_channel_name
  rw [hn]
  dsimp only
  rw [gcn_ready device i w sid s hs hr hc ht hb]
  dsimp only
  exact ⟨rfl, by simp⟩

/-- C6, witness: a cache hit on `wC2`, and a first-call fetch on the
connected `wConn` that caches the stripped names. -/
theorem c6_witness :
    wC2.namesOf IId.a = some ["3A"] ∧
    validate_channel_name devNull IId.a "3A" wC2 = (.ok true, wC2) ∧
    wConn.namesOf IId.a = none ∧
    sockReady wConn IId.a = true ∧
    (validate_channel_name devNames IId.a "Out 1" wConn).1 = .ok true ∧
    (validate_channel_name devNames IId.a "Out 1" wConn).2.namesOf IId.a =
      some ["3A", "Out 1"] := by
  have h1 := (c6_validate_membership devNull IId.a "3A" wC2).1 ["3A"] (by decide)
  have h2 := (c6_validate_membership devNames IId.a "Out 1" wConn).2
    (by decide) (by decide)
  exact ⟨by decide, h1.trans (by decide), by decide, by decide,
    h2.1.trans (by decide), h2.2.trans (by decide)⟩

/-- C7 (confirmed): connecting twice in succession on a fresh instance
raises nothing (`connect` returns normally both times) and leaves the
liveness flag true: the second attempt hits `EISCONN`, which the code
treats as success, whatever the peer would answer. -/
theorem c7_connect_idempotent (host : String) (port : Nat) (host2 : String)
    (port2 : Nat) (acc2 : Bool) (i : IId) (w : World)
    (h : w.sockOf i = none) :
    (connect true host port i w).1 = .ok () ∧
    (connect true host port i w).2.connectedOf i = true ∧
    (connect acc2 host2 port2 i (connect true host port i w).2).1 = .ok () ∧
    (connect acc2 host2 port2 i
      (connect true host port i w).2).2.connectedOf i = true := by
  obtain ⟨h1, h2, h3, _⟩ := connect_spec true host port i w
  have hc1 := h3 h rfl
  obtain ⟨g1, _, _, g4⟩ := connect_spec acc2 host2 port2 i
    (connect true host port i w).2
  have hready := h2 hc1.1
  obtain ⟨sid, s, a, b, c, d, e⟩ := sockReady_elim _ i hready
  have husable : sockUsable (connect true host port i w).2 i = true := by
    simp [sockUsable, a, b, c, d]
  exact ⟨h1, hc1.1, g1, (g4 husable).1⟩

/-- C7, witness: double connect on the fresh world, with the second
attempt's peer even refusing. -/
theorem c7_witness :
    w0.sockOf IId.a = none ∧
    (connect true "localhost" 2101 IId.a w0).2.connectedOf IId.a = true ∧
    (connect false "localhost" 2101 IId.a
      (connect true "localhost" 2101 IId.a w0).2).1 = .ok () ∧
    (connect false "localhost" 2101 IId.a
      (connect true "localhost" 2101 IId.a w0).2).2.connectedOf IId.a = true := by
  have h := c7_connect_idempotent "localhost" 2101 "localhost" 2101 false IId.a w0
    (by decide)
  exact ⟨by decide, h.2.1, h.2.2.1, h.2.2.2⟩

/-- C8 (confirmed): whenever `connect` ends with the liveness flag true,
the receive buffer has been drained empty, and the first `query`
afterwards returns exactly the controller's (stripped) reply to its own
command — never stale leftover bytes. -/
theorem c8_post_connect_drained (acc : Bool) (host : String) (port : Nat)
    (i : IId) (w : World) (device : String → String) (cmd : String)
    (h : (connect acc host port i w).2.connectedOf i = true) :
    sockReady (connect acc host port i w).2 i = true ∧
    (query device i cmd (connect acc host port i w).2).1 =
      .ok (pyStrip (device (cmd ++ "\n"))) := by
  obtain ⟨h1, h2, _, _⟩ := connect_spec acc host port i w
  have hready := h2 h
  obtain ⟨sid, s, a, b, c, d, e⟩ := sockReady_elim _ i hready
  exact ⟨hready, by rw [query_ready device i cmd _ sid s a b c d e]⟩

/-- C8, witness: a reconnect on a socket holding the stale chunk
`"stale\n"`; after the connect the buffer is empty and the first query
sees only its own reply. -/
theorem c8_witness :
    wStale.sockOf IId.a = some 0 ∧
    (wStale.readSock 0).map SockSt.buf = some ["stale" ++ "\n"] ∧
    (connect true "localhost" 2101 IId.a wStale).2.connectedOf IId.a = true ∧
    sockReady (connect true "localhost" 2101 IId.a wStale).2 IId.a = true ∧
    (query devOut IId.a "getOutput?"
      (connect true "localhost" 2101 IId.a wStale).2).1 = .ok "23.5,NaN,-1.2" := by
  have h := c8_post_connect_drained true "localhost" 2101 IId.a wStale devOut
    "getOutput?" (by decide)
  exact ⟨by decide, by decide, by decide, h.1, h.2.trans (by decide)⟩

/-- C9 (confirmed): on a connected drained stream, `get_all_values`
splits the `getOutput?` reply on commas and returns the fields in order,
mapping the literal token `"NaN"` straight to the NaN sentinel and
parsing every other field as a float (provided each such field
parses). -/
theorem c9_get_all_values_parse (device : String → String) (i : IId)
    (w : World) (h : sockReady w i = true)
    (hfields : ∀ f ∈ pySplit ',' (pyStrip (device ("getOutput?" ++ "\n"))),
      f = "NaN" ∨ (pyFloat f).isSome = true) :
    (get_all_values device i w).1 =
      .ok ((pySplit ',' (pyStrip (device ("getOutput?" ++ "\n")))).map fun f =>
        if f = "NaN" then PyVal.nan else (pyFloat f).getD PyVal.nan) := by
  obtain ⟨sid, s, a, b, c, d, e⟩ := sockReady_elim w i h
  unfold get_all_values
  rw [query_ready device i "getOutput?" w sid s a b c d e]
  dsimp only
  rw [parseFields_ok _ hfields]

/-- C9, witness: the reply `"23.5,NaN,-1.2"` parses to
`[23.5, NaN, -1.2]` (canonical decimals `235e-1` and `-12e-1`). -/
theorem c9_witness :
    sockReady wConn IId.a = true ∧
    (∀ f ∈ pySplit ',' (pyStrip (devOut ("getOutput?" ++ "\n"))),
      f = "NaN" ∨ (pyFloat f).isSome = true) ∧
    (get_all_values devOut IId.a wConn).1 =
      .ok [PyVal.num 235 (-1), PyVal.nan, PyVal.num (-12) (-1)] := by
  have h := c9_get_all_values_parse devOut IId.a wConn (by decide) (by decide)
  exact ⟨by decide, by decide, h.trans (by decide)⟩

/-- C10 (confirmed): although `sock`, `connected`, `success` and
`channel_names` are declared at class level, every operation assigns them
only through `self`: running `connect`, `disconnect`, `write`, `read`,
any value accessor or the registry operations on one instance leaves the
other instance's observable attributes (liveness flag, socket handle,
success flag, cached channel names) unchanged, and never writes the
class attributes. -/
theorem c10_instance_isolation (i j : IId) (h : j ≠ i)
    (device : String → String) (acc : Bool) (host : String) (port : Nat)
    (msg ch : String) (w : World) :
    obsOf (connect acc host port i w).2 j = obsOf w j ∧
    obsOf (disconnect i w).2 j = obsOf w j ∧
    obsOf (write device i msg w).2 j = obsOf w j ∧
    obsOf (read i w).2 j = obsOf w j ∧
    obsOf (validate_channel_name device i ch w).2 j = obsOf w j ∧
    obsOf (get_channel_value device i ch w).2 j = obsOf w j ∧
    obsOf (get_all_values device i w).2 j = obsOf w j ∧
    obsOf (get_channel_names device i w).2 j = obsOf w j ∧
    (connect acc host port i w).2.cls = w.cls ∧
    (disconnect i w).2.cls = w.cls ∧
    (validate_channel_name device i ch w).2.cls = w.cls ∧
    (get_channel_value device i ch w).2.cls = w.cls ∧
    (get_all_values device i w).2.cls = w.cls ∧
    (get_channel_names device i w).2.cls = w.cls := by
  have f1 := connect_frame acc host port i w j h
  have f2 := disconnect_frame i w j
  have f3 := write_frame device i msg w j
  have f4 := read_frame i w j
  have f5 := validate_frame device i ch w j h
  have f6 := gcv_frame device i ch w j h
  have f7 := gav_frame device i w j
  have f8 := gcn_frame device i w j
  exact ⟨obsOf_congr w j _ f1.1 f1.2, obsOf_congr w j _ f2.1 f2.2,
    obsOf_congr w j _ f3.1 f3.2, obsOf_congr w j _ f4.1 f4.2,
    obsOf_congr w j _ f5.1 f5.2, obsOf_congr w j _ f6.1 f6.2,
    obsOf_congr w j _ f7.1 f7.2, obsOf_congr w j _ f8.1 f8.2,
    f1.1, f2.1, f5.1, f6.1, f7.1, f8.1⟩

/-- C10, witness: operating on instance `a` of the connected world leaves
instance `b`'s observables untouched. -/
theorem c10_witness :
    IId.b ≠ IId.a ∧
    obsOf (connect true "h" 1 IId.a wConn).2 IId.b = obsOf wConn IId.b ∧
    obsOf (get_channel_value devNull IId.a "3A" wConn).2 IId.b =
      obsOf wConn IId.b := by
  obtain ⟨h1, _, _, _, _, h6, _⟩ :=
    c10_instance_isolation IId.a IId.b (by decide) devNull true "h" 1 "x" "3A" wConn
  exact ⟨by decide, h1, h6⟩

end Claims

end PTC10
